import Mathlib

/-!
Shallow embedding of the solana_to_lavin geyser plugin:
the broker (LavinMQ/AMQP) publisher loop `run_lavin_mq_loop`
(src/plugin/src/lavin_mq_loop.rs) and the plugin notification callbacks
`update_account`, `update_slot_status`, `notify_transaction`
(src/plugin/src/quic_plugin.rs), together with the data model from
src/common/src/types/transaction.rs.

Machine integers are modelled as `Nat` (no arithmetic overflow is exercised
by any verified property); byte buffers as `List Nat`; base58 public keys
and opaque payloads whose internal structure no property examines are
modelled as `String`.
-/

deriving instance DecidableEq for Except

namespace Geyser

/-! Section: Data model (quic_geyser_common types) -/

/-- A base58-encoded Solana public key (`solana_sdk::pubkey::Pubkey`);
base58 rendering is injective, so `String` equality models `Pubkey`
equality. -/
abbrev Pubkey := String

/-- Model of `solana_sdk::account::Account`. -/
structure Account where
  lamports : Nat
  data : List Nat
  owner : Pubkey
  executable : Bool
  rent_epoch : Nat
deriving DecidableEq

/-- Model of `quic_geyser_common::channel_message::AccountData`. -/
structure AccountData where
  pubkey : Pubkey
  account : Account
  write_version : Nat
deriving DecidableEq

/-- Model of `solana_sdk::transaction::TransactionError`, kept opaque. -/
abbrev TransactionError := String

/-- Model of `Result<(), TransactionError>`: the `status` field of
`TransactionStatusMeta`. -/
inductive TxResult where
  | ok
  | err (e : TransactionError)
deriving DecidableEq

/-- Model of `solana_sdk::message::MessageHeader`. -/
structure MessageHeader where
  num_required_signatures : Nat
  num_readonly_signed_accounts : Nat
  num_readonly_unsigned_accounts : Nat
deriving DecidableEq

/-- Model of `solana_sdk::instruction::CompiledInstruction`. -/
structure CompiledInstruction where
  program_id_index : Nat
  accounts : List Nat
  data : List Nat
deriving DecidableEq

/-- Model of `solana_sdk::message::v0::MessageAddressTableLookup`. -/
structure MessageAddressTableLookup where
  account_key : Pubkey
  writable_indexes : List Nat
  readonly_indexes : List Nat
deriving DecidableEq

/-- Model of `solana_sdk::message::v0::Message`. -/
structure V0Message where
  header : MessageHeader
  account_keys : List Pubkey
  recent_blockhash : String
  instructions : List CompiledInstruction
  address_table_lookups : List MessageAddressTableLookup
deriving DecidableEq

/-- Model of `solana_sdk::message::v0::LoadedAddresses`. -/
structure LoadedAddresses where
  writable : List Pubkey
  readonly : List Pubkey
deriving DecidableEq

/-- Opaque payloads whose internal structure no verified property examines:
inner-instruction records, reward records and return data are carried
through the pipeline unchanged. -/
abbrev InnerInstructionsData := List Nat
abbrev RewardsData := List String
abbrev ReturnData := List Nat

/-- Model of `quic_geyser_common::types::transaction::TransactionTokenBalanceSerializable`. -/
structure TransactionTokenBalanceSerializable where
  account_index : Nat
  mint : String
  token_amount : Nat
  owner : String
  program_id : String
deriving DecidableEq

/-- Model of `quic_geyser_common::types::transaction::TransactionMeta`. -/
structure TransactionMeta where
  error : Option TransactionError
  fee : Nat
  pre_balances : List Nat
  post_balances : List Nat
  pre_token_balances : Option (List TransactionTokenBalanceSerializable)
  post_token_balances : Option (List TransactionTokenBalanceSerializable)
  inner_instructions : Option InnerInstructionsData
  log_messages : Option (List String)
  rewards : Option RewardsData
  loaded_addresses : LoadedAddresses
  return_data : Option ReturnData
  compute_units_consumed : Option Nat
deriving DecidableEq

/-- Model of `quic_geyser_common::types::slot_identifier::SlotIdentifier`. -/
structure SlotIdentifier where
  slot : Nat
deriving DecidableEq

/-- Model of `quic_geyser_common::types::transaction::Transaction`. -/
structure Transaction where
  slot_identifier : SlotIdentifier
  signatures : List String
  message : V0Message
  is_vote : Bool
  transaction_meta : TransactionMeta
  index : Nat
deriving DecidableEq

/-- Model of `quic_geyser_common::types::block_meta::BlockMeta` as constructed in
`notify_block_metadata`. -/
structure BlockMeta where
  parent_slot : Nat
  slot : Nat
  parent_blockhash : String
  blockhash : String
  rewards : RewardsData
  block_height : Option Nat
  executed_transaction_count : Nat
  entries_count : Nat
  block_time : Nat
deriving DecidableEq

/-- Commitment level carried by a slot message
(`solana_sdk::commitment_config::CommitmentConfig`). -/
inductive CommitmentLevel where
  | processed
  | confirmed
  | finalized
deriving DecidableEq

/-- Model of `quic_geyser_common::channel_message::ChannelMessage`: the Event type
flowing through every Distribution Channel. -/
inductive ChannelMessage where
  | transaction (tx : Transaction)
  | account (d : AccountData) (slot : Nat) (is_startup : Bool)
  | slotMsg (slot : Nat) (parent : Nat) (cl : CommitmentLevel)
  | blockMeta (bm : BlockMeta)
deriving DecidableEq

/-! Section: Broker publisher loop (src/plugin/src/lavin_mq_loop.rs)

`run_lavin_mq_loop` is embedded as a small-step state machine.  One step of
the machine performs one externally visible unit of work of the Rust loop:

* in the connecting phase, one full connect / create-channel / declare-queues
  cycle (any stage failing makes the whole attempt fail, with a single
  5-second sleep before the retry — exactly the three `continue 'outer`
  sites at the top of the loop);
* in the ready phase, one `mq_rx.recv()` followed by the handling of the
  received message (serialize, route to its topic, `publish_message`, and
  the per-outcome control flow of the `match msg` arms).

`std::sync::mpsc::Receiver::recv` on a channel whose sender was dropped
returns the remaining buffered messages first and then `Err(RecvError)`
immediately once the buffer is empty; the queue/closed fields model that
contract. -/

/-- Broker publisher confirmation (`lapin` publisher-confirms). -/
inductive Confirm where
  | ack
  | nack
deriving DecidableEq

/-- Model of `publish_message(channel, queue, payload)`: the two `.await?` sites
propagate a transport failure (modelled as `none`), and an explicit
`confirm.is_nack()` check turns a negative acknowledgement into an error;
the call succeeds exactly on a transported positive acknowledgement. -/
def publish_message : Option Confirm → Bool
  | none => false
  | some .nack => false
  | some .ack => true

/-- Outcomes of the external world (broker and serializer) that the loop
reacts to: the result of the n-th connect/declare cycle, whether
`serde_json::to_vec` succeeds on a given message, and the transported
confirmation of the n-th `basic_publish` call. -/
structure BrokerEnv where
  connectOk : Nat → Bool
  serializeOk : ChannelMessage → Bool
  publishResult : Nat → Option Confirm

/-- Topic Router: the queue name each `match msg` arm of the loop publishes
to; `ChannelMessage::Slot` falls into the catch-all arm, which only
debug-logs (`none`). -/
def topicOf : ChannelMessage → Option String
  | .transaction _ => some ("transactions")
  | .account _ _ _ => some ("accountChanges")
  | .slotMsg _ _ _ => none
  | .blockMeta _ => some ("blockMeta")

/-- Externally visible actions of the loop, in order of occurrence. -/
inductive LoopAction where
  /-- Model of `sleep(Duration::from_secs(5))` before a `continue 'outer`. -/
  | sleep5
  /-- a successful, broker-acknowledged `publish_message` on a topic. -/
  | publish (topic : String) (msg : ChannelMessage)
  /-- serialization failure: the message is dropped, only logged. -/
  | discard (msg : ChannelMessage)
  /-- catch-all arm: message received, debug-logged, not published. -/
  | ignore (msg : ChannelMessage)
deriving DecidableEq

/-- Phase of the loop: `connecting` covers the connect / create-channel /
declare-queues prefix of the `'outer` loop body, `ready` is the
`while let Ok(msg) = mq_rx.recv()` inner loop, `done` is the state after
`break 'outer`. -/
inductive Phase where
  | connecting
  | ready
  | done
deriving DecidableEq

/-- Return value: `run_lavin_mq_loop` returns a value only via `break 'outer` followed by
`Ok(())`; while the loop is still running there is no return value. -/
def loopReturn : Phase → Option (Except String Unit)
  | .done => some (.ok ())
  | _ => none

/-- State of the embedded loop: current phase, the messages buffered in
`mq_rx` (FIFO), whether the producer handle has been dropped, counters
indexing into the environment's outcome streams, and the trace of visible
actions so far. -/
structure LoopState where
  phase : Phase
  queue : List ChannelMessage
  closed : Bool
  connectAttempts : Nat
  publishAttempts : Nat
  trace : List LoopAction
deriving DecidableEq

/-- One small step of `run_lavin_mq_loop`. -/
def step (env : BrokerEnv) (s : LoopState) : LoopState :=
  match s.phase with
  | .done => s
  | .connecting =>
    if env.connectOk s.connectAttempts then
      { s with phase := .ready, connectAttempts := s.connectAttempts + 1 }
    else
      { s with connectAttempts := s.connectAttempts + 1,
               trace := s.trace ++ [.sleep5] }
  | .ready =>
    match s.queue with
    | [] =>
      if s.closed then
        { s with phase := .done }
      else
        s
    | m :: rest =>
      match topicOf m with
      | none =>
        { s with queue := rest, trace := s.trace ++ [.ignore m] }
      | some t =>
        if env.serializeOk m then
          if publish_message (env.publishResult s.publishAttempts) then
            { s with queue := rest,
                     publishAttempts := s.publishAttempts + 1,
                     trace := s.trace ++ [.publish t m] }
          else
            { s with queue := rest,
                     publishAttempts := s.publishAttempts + 1,
                     phase := .connecting,
                     trace := s.trace ++ [.sleep5] }
        else
          { s with queue := rest, trace := s.trace ++ [.discard m] }

/-- Iterate `step` a given number of times. -/
def run (env : BrokerEnv) : Nat → LoopState → LoopState
  | 0, s => s
  | n + 1, s => run env n (step env s)

/-! Section: Plugin notification callbacks (src/plugin/src/quic_plugin.rs) -/

/-- The two configuration flags of `quic_server.quic_plugin_config` read by
`update_account`. -/
structure QuicPluginConfig where
  allow_accounts : Bool
  allow_accounts_at_startup : Bool
deriving DecidableEq

/-- Model of `QuicGeyserPlugin` state after `on_load`: `quic_server` carries its
config when initialized, the other fields record whether the corresponding
sender handle is present. -/
structure QuicGeyserPlugin where
  quic_server : Option QuicPluginConfig
  block_builder_channel : Bool
  rpc_server_message_channel : Bool
  mq_sender : Bool
deriving DecidableEq

/-- Model of `agave_geyser_plugin_interface::GeyserPluginError`, restricted to the
variants the embedded callbacks construct. -/
inductive GeyserPluginError where
  | accountsUpdateError (msg : String)
  | transactionUpdateError (msg : String)
  /-- Variant `Custom(..)` of the error enum, wrapping a failed
  `quic_server.send_message`. -/
  | custom
deriving DecidableEq

/-- What one callback invocation delivered to each Distribution Channel
(`none` = the channel did not receive the event), plus the error log lines
it emitted for a failed send to the broker-bound channel. -/
structure DispatchOut where
  mq : Option ChannelMessage
  block_builder : Option ChannelMessage
  rpc : Option ChannelMessage
  quic : Option ChannelMessage
  logs : List String
deriving DecidableEq

/-- The callback delivered nothing anywhere and logged nothing. -/
def DispatchOut.empty : DispatchOut :=
  { mq := none, block_builder := none, rpc := none, quic := none, logs := [] }

/-- Model of `ReplicaAccountInfoV3` (the fields `update_account` reads). -/
structure ReplicaAccountInfoV3 where
  pubkey : Pubkey
  lamports : Nat
  owner : Pubkey
  executable : Bool
  rent_epoch : Nat
  data : List Nat
  write_version : Nat
deriving DecidableEq

/-- Model of `ReplicaAccountInfoVersions`: only `V0_0_3` is handled; the payloads of
the older variants are never read (the callback errors out on them). -/
inductive ReplicaAccountInfoVersions where
  | v0_0_1
  | v0_0_2
  | v0_0_3 (info : ReplicaAccountInfoV3)
deriving DecidableEq

/-- The hardcoded account-owner allow-list of `update_account`. -/
def pump_pubkeys_account : List Pubkey :=
  [("EEZZatWNPPsihctMcbmSSSHc5VjMbiSNGBKhyCprzYVo"),
   ("EBMXMDVLK2ZqC3UGRsbUeSBALf34JERK72xA8Y26iBGN"),
   ("bondxMyykdWLUZdBL8YWT2nXi9UhRNaVwcVuQxFuYwN")]

/-- The hardcoded account-key allow-list of `notify_transaction`. -/
def pump_pubkeys_transaction : List Pubkey :=
  [("6EF8rrecthR5Dkzon8Nwu78hRvfCKubJ14M5uBEwF6P"),
   ("EEZZatWNPPsihctMcbmSSSHc5VjMbiSNGBKhyCprzYVo"),
   ("whirLbMiicVdio4qvUfM5KAg6Ct8VwpYzGff3uctyCc"),
   ("675kPX9MHTjS2zt1qfr1NYHuzeLXfQM9H24wFSUt1Mp8"),
   ("LBUZKhRxPF3XUpBCjp4YzTKgLccjZhTSDM9YuVaPwxo"),
   ("EBMXMDVLK2ZqC3UGRsbUeSBALf34JERK72xA8Y26iBGN"),
   ("bondxMyykdWLUZdBL8YWT2nXi9UhRNaVwcVuQxFuYwN")]

/-- Model of `QuicGeyserPlugin::update_account`.  `quicSendOk` is the outcome of
`quic_server.send_message` (its error is propagated through `?` as
`GeyserPluginError::Custom`); `mqSendOk` is the outcome of
`mq_tx.send` (its error is only logged). -/
def update_account (p : QuicGeyserPlugin) (quicSendOk mqSendOk : Bool)
    (account : ReplicaAccountInfoVersions) (slot : Nat) (is_startup : Bool) :
    Except GeyserPluginError Unit × DispatchOut :=
  match p.quic_server with
  | none => (.ok (), DispatchOut.empty)
  | some cfg =>
    if !cfg.allow_accounts || (is_startup && !cfg.allow_accounts_at_startup) then
      (.ok (), DispatchOut.empty)
    else
      match account with
      | .v0_0_1 =>
        (.error (.accountsUpdateError ("Unsupported account info version")),
         DispatchOut.empty)
      | .v0_0_2 =>
        (.error (.accountsUpdateError ("Unsupported account info version")),
         DispatchOut.empty)
      | .v0_0_3 info =>
        if !(pump_pubkeys_account.contains info.owner) then
          (.ok (), DispatchOut.empty)
        else
          let channel_message : ChannelMessage :=
            .account
              { pubkey := info.pubkey,
                account :=
                  { lamports := info.lamports, data := info.data,
                    owner := info.owner, executable := info.executable,
                    rent_epoch := info.rent_epoch },
                write_version := info.write_version }
              slot is_startup
          let outs : DispatchOut :=
            { mq := if p.mq_sender && mqSendOk then some channel_message else none,
              block_builder :=
                if p.block_builder_channel then some channel_message else none,
              rpc :=
                if p.rpc_server_message_channel then some channel_message else none,
              quic := if quicSendOk then some channel_message else none,
              logs :=
                if p.mq_sender && !mqSendOk then
                  [("Failed to send account update to MQ server")]
                else [] }
          (if quicSendOk then .ok () else .error .custom, outs)

/-- Model of `agave_geyser_plugin_interface::SlotStatus`. -/
inductive SlotStatus where
  | processed
  | rooted
  | confirmed
deriving DecidableEq

/-- The `match status` of `update_slot_status`. -/
def commitmentOf : SlotStatus → CommitmentLevel
  | .processed => .processed
  | .rooted => .finalized
  | .confirmed => .confirmed

/-- Model of `QuicGeyserPlugin::update_slot_status`: slot messages go to the
block-builder channel, the rpc channel and the quic server — never to the
broker-bound channel. -/
def update_slot_status (p : QuicGeyserPlugin) (quicSendOk : Bool)
    (slot : Nat) (parent : Option Nat) (status : SlotStatus) :
    Except GeyserPluginError Unit × DispatchOut :=
  match p.quic_server with
  | none => (.ok (), DispatchOut.empty)
  | some _ =>
    let slot_message : ChannelMessage :=
      .slotMsg slot (parent.getD 0) (commitmentOf status)
    let outs : DispatchOut :=
      { mq := none,
        block_builder :=
          if p.block_builder_channel then some slot_message else none,
        rpc :=
          if p.rpc_server_message_channel then some slot_message else none,
        quic := if quicSendOk then some slot_message else none,
        logs := [] }
    (if quicSendOk then .ok () else .error .custom, outs)

/-- The `amount` part of `UiTokenAmount`: the token amount as a decimal
string (the only field of `ui_token_amount` the plugin reads). -/
structure UiTokenAmount where
  amount : String
deriving DecidableEq

/-- Model of `solana_transaction_status::TransactionTokenBalance` (the fields the
plugin reads). -/
structure TransactionTokenBalance where
  account_index : Nat
  mint : String
  ui_token_amount : UiTokenAmount
  owner : String
  program_id : String
deriving DecidableEq

/-- Model of `solana_transaction_status::TransactionStatusMeta` (the fields
`notify_transaction` reads). -/
structure TransactionStatusMeta where
  status : TxResult
  fee : Nat
  pre_balances : List Nat
  post_balances : List Nat
  pre_token_balances : Option (List TransactionTokenBalance)
  post_token_balances : Option (List TransactionTokenBalance)
  inner_instructions : Option InnerInstructionsData
  log_messages : Option (List String)
  rewards : Option RewardsData
  loaded_addresses : LoadedAddresses
  return_data : Option ReturnData
  compute_units_consumed : Option Nat
deriving DecidableEq

/-- Model of `ReplicaTransactionInfoV2` (the fields `notify_transaction` reads;
`account_keys` is the list collected by the `for index in 0..` loop over
`message.account_keys()`). -/
structure ReplicaTransactionInfoV2 where
  signatures : List String
  message_header : MessageHeader
  account_keys : List Pubkey
  recent_blockhash : String
  instructions : List CompiledInstruction
  address_table_lookups : List MessageAddressTableLookup
  is_vote : Bool
  transaction_status_meta : TransactionStatusMeta
  index : Nat
deriving DecidableEq

/-- Model of `ReplicaTransactionInfoVersions`: only `V0_0_2` is handled. -/
inductive ReplicaTransactionInfoVersions where
  | v0_0_1
  | v0_0_2 (info : ReplicaTransactionInfoV2)
deriving DecidableEq

/-- Rust `str::parse::<u64>` (`u64::from_str`): an optional leading plus
sign, then one or more ascii digits, and the value must fit in 64 bits;
anything else is a parse error. -/
def parse_u64 (s : String) : Option Nat :=
  let cs : List Char :=
    match s.data with
    | '+' :: rest => rest
    | cs => cs
  if cs = [] then none
  else if cs.all Char.isDigit then
    let v := cs.foldl (fun acc c => acc * 10 + (c.toNat - 48)) 0
    if v < 2 ^ 64 then some v else none
  else none

/-- The per-balance conversion closure of `notify_transaction`:
`b.ui_token_amount.amount.parse::<u64>().unwrap_or_default()` yields 0 on a
parse failure. -/
def toTokenBalanceSerializable (b : TransactionTokenBalance) :
    TransactionTokenBalanceSerializable :=
  { token_amount := (parse_u64 b.ui_token_amount.amount).getD 0,
    account_index := b.account_index,
    mint := b.mint,
    owner := b.owner,
    program_id := b.program_id }

/-- The `Transaction { .. }` literal built by `notify_transaction`:
`pre/post_token_balances` are wrapped in `Some` of the converted list, with
an absent upstream list replaced by an empty one
(`.as_ref().unwrap_or(&Vec::new())`). -/
def buildTransaction (slot : Nat) (t : ReplicaTransactionInfoV2) : Transaction :=
  { slot_identifier := { slot := slot },
    signatures := t.signatures,
    message :=
      { header := t.message_header,
        account_keys := t.account_keys,
        recent_blockhash := t.recent_blockhash,
        instructions := t.instructions,
        address_table_lookups := t.address_table_lookups },
    is_vote := t.is_vote,
    transaction_meta :=
      { error :=
          match t.transaction_status_meta.status with
          | .ok => none
          | .err e => some e,
        fee := t.transaction_status_meta.fee,
        pre_balances := t.transaction_status_meta.pre_balances,
        post_balances := t.transaction_status_meta.post_balances,
        post_token_balances :=
          some (((t.transaction_status_meta.post_token_balances).getD []).map
            toTokenBalanceSerializable),
        pre_token_balances :=
          some (((t.transaction_status_meta.pre_token_balances).getD []).map
            toTokenBalanceSerializable),
        inner_instructions := t.transaction_status_meta.inner_instructions,
        log_messages := t.transaction_status_meta.log_messages,
        rewards := t.transaction_status_meta.rewards,
        loaded_addresses := t.transaction_status_meta.loaded_addresses,
        return_data := t.transaction_status_meta.return_data,
        compute_units_consumed :=
          t.transaction_status_meta.compute_units_consumed },
    index := t.index }

/-- Model of `QuicGeyserPlugin::notify_transaction`.  Note the callback sends the
transaction to the block-builder channel, the broker-bound channel and the
quic server, but never to the rpc channel. -/
def notify_transaction (p : QuicGeyserPlugin) (quicSendOk mqSendOk : Bool)
    (transaction : ReplicaTransactionInfoVersions) (slot : Nat) :
    Except GeyserPluginError Unit × DispatchOut :=
  match p.quic_server with
  | none => (.ok (), DispatchOut.empty)
  | some _ =>
    match transaction with
    | .v0_0_1 =>
      (.error (.transactionUpdateError ("Unsupported transaction version")),
       DispatchOut.empty)
    | .v0_0_2 info =>
      if !(pump_pubkeys_transaction.any
            (fun key => info.account_keys.contains key)) then
        (.ok (), DispatchOut.empty)
      else
        let tx := buildTransaction slot info
        if tx.transaction_meta.error.isSome then
          (.ok (), DispatchOut.empty)
        else
          let transaction_message : ChannelMessage := .transaction tx
          let outs : DispatchOut :=
            { block_builder :=
                if p.block_builder_channel then some transaction_message
                else none,
              mq :=
                if p.mq_sender && mqSendOk then some transaction_message
                else none,
              rpc := none,
              quic := if quicSendOk then some transaction_message else none,
              logs :=
                if p.mq_sender && !mqSendOk then
                  [("Failed to send transaction to MQ server")]
                else [] }
          (if quicSendOk then .ok () else .error .custom, outs)

/-! Section: Concrete fixtures used by witnesses and counterexamples -/

/-- A small concrete block-meta Event. -/
def bmA : BlockMeta :=
  { parent_slot := 0, slot := 1, parent_blockhash := ("p"),
    blockhash := ("a"), rewards := [], block_height := none,
    executed_transaction_count := 0, entries_count := 0, block_time := 0 }

/-- A second concrete block-meta Event, distinct from `bmA`. -/
def bmB : BlockMeta :=
  { parent_slot := 1, slot := 2, parent_blockhash := ("a"),
    blockhash := ("b"), rewards := [], block_height := some 1,
    executed_transaction_count := 3, entries_count := 0, block_time := 7 }

def msgA : ChannelMessage := .blockMeta bmA

def msgB : ChannelMessage := .blockMeta bmB

/-- Broker environment that always connects, always serializes, and nacks
every publish. -/
def envNack : BrokerEnv :=
  { connectOk := fun _ => true,
    serializeOk := fun _ => true,
    publishResult := fun _ => some .nack }

/-- Broker environment that always connects and acks, but fails to
serialize `msgA`. -/
def envSerFail : BrokerEnv :=
  { connectOk := fun _ => true,
    serializeOk := fun m => if m = msgA then false else true,
    publishResult := fun _ => some .ack }

/-- Loop state in `Ready` with `msgA` then `msgB` buffered and the producer
handle already dropped. -/
def s0AB : LoopState :=
  { phase := .ready, queue := [msgA, msgB], closed := true,
    connectAttempts := 0, publishAttempts := 0, trace := [] }

/-! Section: C1 -/

/-- C1: in `Ready` with a routable Event at the head of the queue, a
transport/publish failure (`none`) or a negative acknowledgement
(`some nack`) on an Event that serialized makes the loop's next state
`Connecting`, with the fixed 5-second delay recorded; a serialization
failure instead discards only that Event, leaves the loop in `Ready`
without touching the publish counter, and the next Event received from the
channel is still published without any reconnection. -/
theorem C1_nack_reconnects_serialization_does_not :
    ∀ (env : BrokerEnv) (s : LoopState) (m : ChannelMessage)
      (rest : List ChannelMessage) (t : String),
      s.phase = .ready → s.queue = m :: rest → topicOf m = some t →
      ((env.serializeOk m = true →
          (env.publishResult s.publishAttempts = none ∨
            env.publishResult s.publishAttempts = some .nack) →
          (step env s).phase = .connecting ∧
            (step env s).trace = s.trace ++ [.sleep5]) ∧
        (env.serializeOk m = false →
          (step env s).phase = .ready ∧
            (step env s).queue = rest ∧
            (step env s).trace = s.trace ++ [.discard m] ∧
            (step env s).publishAttempts = s.publishAttempts ∧
            (∀ m' rest' t', rest = m' :: rest' → topicOf m' = some t' →
              env.serializeOk m' = true →
              env.publishResult s.publishAttempts = some .ack →
              (step env (step env s)).phase = .ready ∧
                (step env (step env s)).trace =
                  s.trace ++ [.discard m, .publish t' m']))) := by
  intro env s m rest t hphase hqueue htop
  constructor
  · intro hser hpub
    rcases hpub with h | h <;>
      simp [step, hphase, hqueue, htop, hser, h, publish_message]
  · intro hser
    refine ⟨?_, ?_, ?_, ?_, ?_⟩ <;>
      simp [step, hphase, hqueue, htop, hser]
    intro m' rest' t' hrest htop' hser' hpub
    subst hrest
    simp [step, hphase, hqueue, htop, hser, htop', hser', hpub,
      publish_message]

/-- Witness for C1 at concrete inputs: a nacked publish of `msgA` sends the
loop to `Connecting`; a serialization failure on `msgA` leaves it in
`Ready` and `msgB` is then published to its topic. -/
theorem C1_witness :
    ((step envNack s0AB).phase = .connecting ∧
      (step envNack s0AB).trace = [.sleep5]) ∧
    ((step envSerFail (step envSerFail s0AB)).phase = .ready ∧
      (step envSerFail (step envSerFail s0AB)).trace =
        [.discard msgA, .publish ("blockMeta") msgB]) := by
  have h1 := C1_nack_reconnects_serialization_does_not envNack s0AB msgA
    [msgB] ("blockMeta") rfl rfl rfl
  have h2 := C1_nack_reconnects_serialization_does_not envSerFail s0AB msgA
    [msgB] ("blockMeta") rfl rfl rfl
  refine ⟨h1.1 rfl (Or.inr rfl), ?_⟩
  have h3 := (h2.2 (by decide)).2.2.2.2 msgB [] ("blockMeta") rfl rfl
    (by decide) rfl
  exact h3

/-! Section: C5 -/

/-- C5: the Topic Router maps a `Transaction` Event only to
`"transactions"`, an `AccountUpdate` only to `"accountChanges"`, a
`BlockMeta` only to `"blockMeta"`, and assigns no topic to a `SlotStatus`
Event; any publish the loop performs while handling the Event at the head
of the queue carries exactly that Event's topic; a `SlotStatus` Event
reaching the loop is accepted and silently ignored (removed from the queue
with no publish and no state change beyond the debug log); and
`update_slot_status` never targets the broker-bound channel at all. -/
theorem C5_topic_routing :
    (∀ tx, topicOf (.transaction tx) = some ("transactions")) ∧
    (∀ d sl st, topicOf (.account d sl st) = some ("accountChanges")) ∧
    (∀ bm, topicOf (.blockMeta bm) = some ("blockMeta")) ∧
    (∀ sl pa cl, topicOf (.slotMsg sl pa cl) = none) ∧
    (∀ (env : BrokerEnv) (s : LoopState) (m : ChannelMessage)
        (rest : List ChannelMessage),
      s.phase = .ready → s.queue = m :: rest →
      ∀ t x, LoopAction.publish t x ∈ (step env s).trace →
        LoopAction.publish t x ∈ s.trace ∨ (x = m ∧ topicOf m = some t)) ∧
    (∀ (env : BrokerEnv) (s : LoopState) (m : ChannelMessage)
        (rest : List ChannelMessage),
      s.phase = .ready → s.queue = m :: rest → topicOf m = none →
      step env s = { s with queue := rest, trace := s.trace ++ [.ignore m] }) ∧
    (∀ p quicSendOk slot parent status,
      (update_slot_status p quicSendOk slot parent status).2.mq = none) := by
  refine ⟨fun tx => rfl, fun d sl st => rfl, fun bm => rfl,
    fun sl pa cl => rfl, ?_, ?_, ?_⟩
  · intro env s m rest hphase hqueue t x hmem
    rcases htop : topicOf m with _ | t0
    · simp [step, hphase, hqueue, htop] at hmem
      exact Or.inl hmem
    · by_cases hser : env.serializeOk m = true
      · by_cases hpub :
          publish_message (env.publishResult s.publishAttempts) = true
        · simp [step, hphase, hqueue, htop, hser, hpub] at hmem
          rcases hmem with hmem | ⟨ht, hx⟩
          · exact Or.inl hmem
          · exact Or.inr ⟨hx, congrArg some ht.symm⟩
        · simp [step, hphase, hqueue, htop, hser, hpub] at hmem
          exact Or.inl hmem
      · simp [step, hphase, hqueue, htop, hser] at hmem
        exact Or.inl hmem
  · intro env s m rest hphase hqueue htop
    simp [step, hphase, hqueue, htop]
  · intro p quicSendOk slot parent status
    cases hq : p.quic_server <;> simp [update_slot_status, hq, DispatchOut.empty]

/-- Witness for C5 at concrete inputs: with a slot Event at the head of the
queue, the loop removes and ignores it; and any publish recorded after
handling `msgA` (a block-meta Event) is a publish of `msgA` on
`"blockMeta"`. -/
theorem C5_witness :
    (step envNack
        { phase := .ready, queue := [.slotMsg 5 4 .confirmed], closed := true,
          connectAttempts := 0, publishAttempts := 0, trace := [] } =
      { phase := .ready, queue := [], closed := true, connectAttempts := 0,
        publishAttempts := 0,
        trace := [.ignore (.slotMsg 5 4 .confirmed)] }) ∧
    (∀ t x, LoopAction.publish t x ∈ (step envSerFail s0AB).trace →
      LoopAction.publish t x ∈ s0AB.trace ∨
        (x = msgA ∧ topicOf msgA = some t)) := by
  constructor
  · exact C5_topic_routing.2.2.2.2.2.1 envNack _ (.slotMsg 5 4 .confirmed) []
      rfl rfl rfl
  · exact C5_topic_routing.2.2.2.2.1 envSerFail s0AB msgA [msgB] rfl rfl

/-! Section: C7 -/

/-- Broker environment in which every connect attempt fails. -/
def envDown : BrokerEnv :=
  { connectOk := fun _ => false,
    serializeOk := fun _ => true,
    publishResult := fun _ => some .ack }

/-- Loop state in `Connecting` with an empty queue whose producer handle
has already been dropped. -/
def sDownClosed : LoopState :=
  { phase := .connecting, queue := [], closed := true,
    connectAttempts := 0, publishAttempts := 0, trace := [] }

/-- Counterexample to C7 as stated: with the broker-bound channel already
closed, a loop stuck in `Connecting` against an unreachable broker keeps
making reconnect attempts (five further attempts here, one 5-second sleep
each) and does not terminate — channel closure alone does not stop the
reconnect attempts, because closure is only observed from `Ready`. -/
theorem C7_counterexample :
    sDownClosed.closed = true ∧
    (run envDown 5 sDownClosed).phase = .connecting ∧
    (run envDown 5 sDownClosed).connectAttempts = 5 ∧
    (run envDown 5 sDownClosed).trace =
      [.sleep5, .sleep5, .sleep5, .sleep5, .sleep5] ∧
    loopReturn (run envDown 5 sDownClosed).phase = none := by
  decide

/-- C7 as amended: every failed connect attempt appends exactly one fixed
5-second delay and leaves the loop in `Connecting` with the attempt counter
incremented (so there is no maximum retry count: this holds at every
attempt number); a successful attempt moves to `Ready`; and the loop
terminates only out of `Ready` on a closed and fully drained channel —
channel closure alone does not stop reconnect attempts while the broker
stays unreachable. -/
theorem C7_amended_backoff_and_termination :
    ∀ (env : BrokerEnv) (s : LoopState),
      (s.phase = .connecting → env.connectOk s.connectAttempts = false →
        step env s =
          { s with connectAttempts := s.connectAttempts + 1,
                   trace := s.trace ++ [.sleep5] }) ∧
      (s.phase = .connecting → env.connectOk s.connectAttempts = true →
        step env s =
          { s with phase := .ready,
                   connectAttempts := s.connectAttempts + 1 }) ∧
      ((step env s).phase = .done →
        s.phase = .done ∨
          (s.phase = .ready ∧ s.queue = [] ∧ s.closed = true)) := by
  intro env s
  refine ⟨?_, ?_, ?_⟩
  · intro hphase hconn
    simp [step, hphase, hconn]
  · intro hphase hconn
    simp [step, hphase, hconn]
  · intro hdone
    rcases hphase : s.phase with _ | _ | _
    · rcases hconn : env.connectOk s.connectAttempts <;>
        simp [step, hphase, hconn] at hdone
    · rcases hqueue : s.queue with _ | ⟨m, rest⟩
      · rcases hclosed : s.closed
        · simp [step, hphase, hqueue, hclosed] at hdone
        · exact Or.inr ⟨rfl, rfl, rfl⟩
      · rcases htop : topicOf m with _ | t
        · simp [step, hphase, hqueue, htop] at hdone
        · by_cases hser : env.serializeOk m = true
          · by_cases hpub :
              publish_message (env.publishResult s.publishAttempts) = true <;>
              simp [step, hphase, hqueue, htop, hser, hpub] at hdone
          · simp [step, hphase, hqueue, htop, hser] at hdone
    · exact Or.inl rfl

/-- Witness for the amended C7 at concrete inputs: a failed attempt at
attempt number 0 sleeps 5 seconds and stays in `Connecting`; termination of
`s0AB` after its two Events are published happened from `Ready` on the
closed, drained channel. -/
theorem C7_amended_witness :
    (step envDown sDownClosed =
      { phase := .connecting, queue := [], closed := true,
        connectAttempts := 1, publishAttempts := 0, trace := [.sleep5] }) ∧
    ((step envDown sDownClosed).phase = .done →
      sDownClosed.phase = .done ∨
        (sDownClosed.phase = .ready ∧ sDownClosed.queue = [] ∧
          sDownClosed.closed = true)) := by
  refine ⟨?_, ?_⟩
  · exact (C7_amended_backoff_and_termination envDown sDownClosed).1 rfl rfl
  · exact (C7_amended_backoff_and_termination envDown sDownClosed).2.2

/-! Section: C3 -/

/-- Broker environment that always connects and serializes, whose first
publish call fails at the transport level and every later one is
positively acknowledged. -/
def envPubFailOnce : BrokerEnv :=
  { connectOk := fun _ => true,
    serializeOk := fun _ => true,
    publishResult := fun n => if n = 0 then none else some .ack }

/-- Counterexample to C3 as stated: `msgA` serializes successfully and its
publish attempt fails; after the reconnect the loop receives the next
message from the channel, so `msgB` is published and the loop terminates,
but `msgA` is never published — the Event in flight at a publish failure
is lost, not redelivered once the loop is back in `Ready`. -/
theorem C3_counterexample :
    envPubFailOnce.serializeOk msgA = true ∧
    s0AB.queue = [msgA, msgB] ∧
    (run envPubFailOnce 4 s0AB).phase = .done ∧
    (run envPubFailOnce 4 s0AB).trace =
      [.sleep5, .publish ("blockMeta") msgB] ∧
    LoopAction.publish ("blockMeta") msgA ∉
      (run envPubFailOnce 4 s0AB).trace := by
  exact ⟨rfl, rfl, rfl, rfl, by decide⟩

/-- C3 as amended: Events still enqueued in the channel before or during
the reconnect retries are not lost — the queue is untouched throughout
`Connecting` — and each of them is published when it reaches the head of
the queue in `Ready` with a successful publish call; but the Event whose
own publish attempt fails (transport failure or negative acknowledgement)
is consumed from the queue and never published, so at-least-once delivery
holds only for Events whose publish call succeeds. -/
theorem C3_amended_no_loss_of_enqueued_events :
    ∀ (env : BrokerEnv) (s : LoopState),
      (s.phase = .connecting →
        (step env s).queue = s.queue ∧ (step env s).closed = s.closed) ∧
      (∀ m rest t, s.phase = .ready → s.queue = m :: rest →
        topicOf m = some t → env.serializeOk m = true →
        env.publishResult s.publishAttempts = some .ack →
        (step env s).trace = s.trace ++ [.publish t m] ∧
          (step env s).queue = rest) ∧
      (∀ m rest t, s.phase = .ready → s.queue = m :: rest →
        topicOf m = some t → env.serializeOk m = true →
        publish_message (env.publishResult s.publishAttempts) = false →
        (step env s).phase = .connecting ∧
          (step env s).queue = rest ∧
          (∀ t' x, LoopAction.publish t' x ∈ (step env s).trace →
            LoopAction.publish t' x ∈ s.trace)) := by
  intro env s
  refine ⟨?_, ?_, ?_⟩
  · intro hphase
    rcases hconn : env.connectOk s.connectAttempts <;>
      simp [step, hphase, hconn]
  · intro m rest t hphase hqueue htop hser hpub
    simp [step, hphase, hqueue, htop, hser, hpub, publish_message]
  · intro m rest t hphase hqueue htop hser hpub
    refine ⟨?_, ?_, ?_⟩ <;> simp [step, hphase, hqueue, htop, hser, hpub]

/-- Loop state in `Connecting` with `msgA` still enqueued. -/
def sConnQ : LoopState :=
  { phase := .connecting, queue := [msgA], closed := false,
    connectAttempts := 0, publishAttempts := 0, trace := [] }

/-- Broker environment in which everything succeeds. -/
def envAck : BrokerEnv :=
  { connectOk := fun _ => true,
    serializeOk := fun _ => true,
    publishResult := fun _ => some .ack }

/-- Witness for the amended C3 at concrete inputs: a reconnect attempt
leaves the enqueued `msgA` in the queue, and from `Ready` with an acking
broker the head Event `msgA` is published and dequeued. -/
theorem C3_amended_witness :
    ((step envDown sConnQ).queue = [msgA] ∧
      (step envDown sConnQ).closed = false) ∧
    ((step envAck s0AB).trace = [.publish ("blockMeta") msgA] ∧
      (step envAck s0AB).queue = [msgB]) := by
  refine ⟨(C3_amended_no_loss_of_enqueued_events envDown sConnQ).1 rfl, ?_⟩
  exact (C3_amended_no_loss_of_enqueued_events envAck s0AB).2.1 msgA [msgB]
    ("blockMeta") rfl rfl rfl rfl rfl

/-! Section: C6 -/

/-- A broker environment in which every connect/declare cycle succeeds,
every message serializes, and every publish is positively acknowledged. -/
def allGoodEnv (env : BrokerEnv) : Prop :=
  (∀ n, env.connectOk n = true) ∧
  (∀ m, env.serializeOk m = true) ∧
  (∀ n, env.publishResult n = some .ack)

/-- The visible action the loop performs for one dequeued message when the
broker cooperates: a publish on the message's topic, or the debug-logged
catch-all for a topicless message. -/
def routeAction (m : ChannelMessage) : LoopAction :=
  match topicOf m with
  | some t => .publish t m
  | none => .ignore m

/-- Draining a closed channel: starting from `Ready` with the producer
handle dropped and a cooperating broker, the loop consumes its whole queue
(one recv per step, remaining in `Ready` until the queue is empty),
appends exactly one routed action per message, and then exits. -/
theorem drain_run :
    ∀ (q : List ChannelMessage) (env : BrokerEnv) (s : LoopState),
      allGoodEnv env → s.phase = .ready → s.closed = true → s.queue = q →
      (run env (q.length + 1) s).phase = .done ∧
      (run env (q.length + 1) s).trace = s.trace ++ q.map routeAction ∧
      (∀ k, k ≤ q.length → (run env k s).phase = .ready) := by
  intro q
  induction q with
  | nil =>
    intro env s hgood hphase hclosed hqueue
    refine ⟨?_, ?_, ?_⟩
    · simp [run, step, hphase, hqueue, hclosed]
    · simp [run, step, hphase, hqueue, hclosed]
    · intro k hk
      have hk0 : k = 0 := Nat.le_zero.mp hk
      subst hk0
      exact hphase
  | cons m rest ih =>
    intro env s hgood hphase hclosed hqueue
    have hex : ∃ pa, step env s =
        { s with queue := rest, publishAttempts := pa,
                 trace := s.trace ++ [routeAction m] } := by
      rcases htop : topicOf m with _ | t
      · exact ⟨s.publishAttempts,
          by simp [step, hphase, hqueue, htop, routeAction]⟩
      · exact ⟨s.publishAttempts + 1,
          by simp [step, hphase, hqueue, htop, routeAction, hgood.2.1 m,
            hgood.2.2 s.publishAttempts, publish_message]⟩
    obtain ⟨pa, hs'⟩ := hex
    have hrun : ∀ n, run env (n + 1) s = run env n (step env s) :=
      fun n => rfl
    obtain ⟨hd, htr, hk⟩ := ih env (step env s) hgood
      (by rw [hs']; exact hphase) (by rw [hs']; exact hclosed) (by rw [hs'])
    refine ⟨?_, ?_, ?_⟩
    · rw [List.length_cons, hrun]
      exact hd
    · rw [List.length_cons, hrun, htr, hs']
      simp
    · intro k hkk
      cases k with
      | zero => exact hphase
      | succ j =>
        rw [hrun]
        exact hk j (by simpa using hkk)

/-- C6: once the producer handle of the broker-bound channel is dropped
(`closed`), the loop in `Ready` with a cooperating broker drains every
remaining queued Event, publishes each Event that has a topic (in queue
order), and then terminates by returning `Ok(())` — and it is still
running (neither terminated nor hung) at every point before the queue is
drained. -/
theorem C6_closed_channel_drains_then_ok :
    ∀ (env : BrokerEnv) (s : LoopState),
      allGoodEnv env → s.phase = .ready → s.closed = true →
      (run env (s.queue.length + 1) s).phase = .done ∧
      loopReturn (run env (s.queue.length + 1) s).phase =
        some (.ok ()) ∧
      (run env (s.queue.length + 1) s).trace =
        s.trace ++ s.queue.map routeAction ∧
      (∀ m t, m ∈ s.queue → topicOf m = some t →
        LoopAction.publish t m ∈ (run env (s.queue.length + 1) s).trace) ∧
      (∀ k, k ≤ s.queue.length →
        (run env k s).phase = .ready ∧
          loopReturn (run env k s).phase = none) := by
  intro env s hgood hphase hclosed
  obtain ⟨hd, htr, hk⟩ := drain_run s.queue env s hgood hphase hclosed rfl
  refine ⟨hd, by rw [hd]; rfl, htr, ?_, ?_⟩
  · intro m t hm htop
    rw [htr]
    have : LoopAction.publish t m = routeAction m := by
      simp [routeAction, htop]
    rw [this]
    exact List.mem_append_right _ (List.mem_map_of_mem routeAction hm)
  · intro k hkk
    refine ⟨hk k hkk, ?_⟩
    rw [hk k hkk]
    rfl

/-- Witness for C6 at concrete inputs: with `msgA, msgB` still buffered and
the channel closed, three steps publish both Events in order and terminate
with `Ok(())`; after two steps the loop is still in `Ready`. -/
theorem C6_witness :
    (run envAck 3 s0AB).phase = .done ∧
    loopReturn (run envAck 3 s0AB).phase = some (.ok ()) ∧
    (run envAck 3 s0AB).trace =
      [.publish ("blockMeta") msgA, .publish ("blockMeta") msgB] ∧
    (run envAck 2 s0AB).phase = .ready := by
  have h := C6_closed_channel_drains_then_ok envAck s0AB
    ⟨fun _ => rfl, fun _ => rfl, fun _ => rfl⟩ rfl rfl
  exact ⟨h.1, h.2.1, h.2.2.1, (h.2.2.2.2 2 (by decide)).1⟩

/-! Section: C2 -/

/-- C2: on a loaded plugin (quic server initialized, account notifications
allowed, broker sender present and its consumer alive), an `AccountUpdate`
is forwarded to the broker-bound channel iff the account's owner is in the
hardcoded allow-list, and a `Transaction` is forwarded to the broker-bound
channel iff the allow-list intersects the transaction message's account
keys and the transaction's execution error is `None`. -/
theorem C2_filter_correctness :
    (∀ (p : QuicGeyserPlugin) (cfg : QuicPluginConfig) (quicSendOk : Bool)
        (info : ReplicaAccountInfoV3) (slot : Nat) (is_startup : Bool),
      p.quic_server = some cfg → cfg.allow_accounts = true →
      (is_startup = true → cfg.allow_accounts_at_startup = true) →
      p.mq_sender = true →
      ((update_account p quicSendOk true (.v0_0_3 info) slot
          is_startup).2.mq.isSome = true ↔
        info.owner ∈ pump_pubkeys_account)) ∧
    (∀ (p : QuicGeyserPlugin) (cfg : QuicPluginConfig) (quicSendOk : Bool)
        (info : ReplicaTransactionInfoV2) (slot : Nat),
      p.quic_server = some cfg → p.mq_sender = true →
      ((notify_transaction p quicSendOk true (.v0_0_2 info)
          slot).2.mq.isSome = true ↔
        ((∃ k, k ∈ pump_pubkeys_transaction ∧ k ∈ info.account_keys) ∧
          info.transaction_status_meta.status = .ok))) := by
  constructor
  · intro p cfg quicSendOk info slot is_startup hq hallow hstart hmq
    have hcond : (!cfg.allow_accounts ||
        (is_startup && !cfg.allow_accounts_at_startup)) = false := by
      cases is_startup
      · simp [hallow]
      · simp [hallow, hstart rfl]
    by_cases hc : pump_pubkeys_account.contains info.owner = true
    · have hmem : info.owner ∈ pump_pubkeys_account := List.elem_iff.mp hc
      simp [update_account, hq, hcond, hc, hmq, hmem]
    · have hmem : info.owner ∉ pump_pubkeys_account :=
        fun hm => hc (List.elem_iff.mpr hm)
      simp [update_account, hq, hcond, hc, DispatchOut.empty, hmem]
  · intro p cfg quicSendOk info slot hq hmq
    by_cases hc : ∃ k, k ∈ pump_pubkeys_transaction ∧ k ∈ info.account_keys
    · have hnot : ¬∀ x ∈ pump_pubkeys_transaction, x ∉ info.account_keys := by
        push_neg
        obtain ⟨k, hk, hkk⟩ := hc
        exact ⟨k, hk, hkk⟩
      rcases hst : info.transaction_status_meta.status with _ | e
      · simp [notify_transaction, hq, hnot, buildTransaction, hst, hmq, hc]
      · simp [notify_transaction, hq, hnot, buildTransaction, hst,
          DispatchOut.empty, hc]
    · have hforall : ∀ x ∈ pump_pubkeys_transaction,
          x ∉ info.account_keys := by
        intro x hx hxx
        exact hc ⟨x, hx, hxx⟩
      simp [notify_transaction, hq, DispatchOut.empty, hc]
      rw [if_pos hforall]

/-- A loaded plugin with every channel present and accounts allowed. -/
def pLoaded : QuicGeyserPlugin :=
  { quic_server := some { allow_accounts := true,
                          allow_accounts_at_startup := true },
    block_builder_channel := true,
    rpc_server_message_channel := true,
    mq_sender := true }

/-- A concrete account-info whose owner is in the allow-list. -/
def infoOwnerInList : ReplicaAccountInfoV3 :=
  { pubkey := ("acc1"), lamports := 10,
    owner := ("EEZZatWNPPsihctMcbmSSSHc5VjMbiSNGBKhyCprzYVo"),
    executable := false, rent_epoch := 0, data := [1, 2], write_version := 7 }

/-- A concrete account-info whose owner is not in the allow-list. -/
def infoOwnerNotInList : ReplicaAccountInfoV3 :=
  { pubkey := ("acc2"), lamports := 10,
    owner := ("11111111111111111111111111111111"),
    executable := false, rent_epoch := 0, data := [], write_version := 8 }

/-- Token-balance fixture whose decimal amount string does not parse. -/
def badBalance : TransactionTokenBalance :=
  { account_index := 3, mint := ("mintX"),
    ui_token_amount := { amount := ("12x4") },
    owner := ("ownY"), program_id := ("progZ") }

/-- A concrete transaction-info that matches the allow-list, executed
without error, with an absent pre-token-balance list and one unparsable
post-token-balance. -/
def infoTxMatch : ReplicaTransactionInfoV2 :=
  { signatures := [("sig1")],
    message_header := { num_required_signatures := 1,
                        num_readonly_signed_accounts := 0,
                        num_readonly_unsigned_accounts := 0 },
    account_keys := [("payer"),
                     ("6EF8rrecthR5Dkzon8Nwu78hRvfCKubJ14M5uBEwF6P")],
    recent_blockhash := ("rbh"),
    instructions := [],
    address_table_lookups := [],
    is_vote := false,
    transaction_status_meta :=
      { status := .ok, fee := 5000, pre_balances := [10], post_balances := [5],
        pre_token_balances := none,
        post_token_balances := some [badBalance],
        inner_instructions := none, log_messages := none, rewards := none,
        loaded_addresses := { writable := [], readonly := [] },
        return_data := none, compute_units_consumed := some 150 },
    index := 2 }

/-- A concrete transaction-info sharing no account key with the
allow-list. -/
def infoTxNoMatch : ReplicaTransactionInfoV2 :=
  { infoTxMatch with account_keys := [("payer"), ("someoneElse")] }

/-- Witness for C2 at concrete inputs: the matching account and matching
error-free transaction are forwarded to the broker-bound channel; the
non-matching ones are not. -/
theorem C2_witness :
    ((update_account pLoaded true true (.v0_0_3 infoOwnerInList) 3
        false).2.mq.isSome = true ∧
      infoOwnerInList.owner ∈ pump_pubkeys_account) ∧
    ((update_account pLoaded true true (.v0_0_3 infoOwnerNotInList) 3
        false).2.mq.isSome = false) ∧
    ((notify_transaction pLoaded true true (.v0_0_2 infoTxMatch)
        9).2.mq.isSome = true) ∧
    ((notify_transaction pLoaded true true (.v0_0_2 infoTxNoMatch)
        9).2.mq.isSome = false) := by
  have hacc := C2_filter_correctness.1 pLoaded
    { allow_accounts := true, allow_accounts_at_startup := true } true
  have htx := C2_filter_correctness.2 pLoaded
    { allow_accounts := true, allow_accounts_at_startup := true } true
  refine ⟨⟨?_, by decide⟩, by decide, ?_, by decide⟩
  · exact (hacc infoOwnerInList 3 false rfl rfl (fun h => rfl) rfl).mpr
      (by decide)
  · exact (htx infoTxMatch 9 rfl rfl).mpr
      ⟨⟨("6EF8rrecthR5Dkzon8Nwu78hRvfCKubJ14M5uBEwF6P"), by decide, by decide⟩,
        rfl⟩

/-! Section: C10 -/

/-- C10: if the quic server is not initialized, or `allow_accounts` is
false, or the update is a startup update while `allow_accounts_at_startup`
is false, then `update_account` returns `Ok(())` and delivers the event to
no Distribution Channel at all (broker-bound channel included). -/
theorem C10_account_update_early_returns :
    ∀ (p : QuicGeyserPlugin) (quicSendOk mqSendOk : Bool)
      (account : ReplicaAccountInfoVersions) (slot : Nat) (is_startup : Bool),
      (p.quic_server = none ∨
        ∃ cfg, p.quic_server = some cfg ∧
          (cfg.allow_accounts = false ∨
            (is_startup = true ∧ cfg.allow_accounts_at_startup = false))) →
      update_account p quicSendOk mqSendOk account slot is_startup =
        (.ok (), DispatchOut.empty) := by
  intro p quicSendOk mqSendOk account slot is_startup h
  rcases h with h | ⟨cfg, hq, hcase⟩
  · simp [update_account, h]
  · rcases hcase with hA | ⟨hS, hAS⟩
    · simp [update_account, hq, hA]
    · simp [update_account, hq, hS, hAS]

/-- Plugin state whose quic server was never initialized. -/
def pNoServer : QuicGeyserPlugin :=
  { quic_server := none, block_builder_channel := false,
    rpc_server_message_channel := false, mq_sender := false }

/-- Loaded plugin with account notifications disabled. -/
def pNoAccounts : QuicGeyserPlugin :=
  { pLoaded with quic_server := some { allow_accounts := false,
                                       allow_accounts_at_startup := true } }

/-- Loaded plugin with startup account notifications disabled. -/
def pNoStartup : QuicGeyserPlugin :=
  { pLoaded with quic_server := some { allow_accounts := true,
                                       allow_accounts_at_startup := false } }

/-- Witness for C10 at concrete inputs: the three early-return conditions
each yield `Ok(())` and an empty dispatch, even for an account whose owner
is in the allow-list. -/
theorem C10_witness :
    update_account pNoServer true true (.v0_0_3 infoOwnerInList) 1 false =
      (.ok (), DispatchOut.empty) ∧
    update_account pNoAccounts true true (.v0_0_3 infoOwnerInList) 1 false =
      (.ok (), DispatchOut.empty) ∧
    update_account pNoStartup true true (.v0_0_3 infoOwnerInList) 1 true =
      (.ok (), DispatchOut.empty) := by
  refine ⟨?_, ?_, ?_⟩
  · exact C10_account_update_early_returns pNoServer true true
      (.v0_0_3 infoOwnerInList) 1 false (Or.inl rfl)
  · exact C10_account_update_early_returns pNoAccounts true true
      (.v0_0_3 infoOwnerInList) 1 false
      (Or.inr ⟨_, rfl, Or.inl rfl⟩)
  · exact C10_account_update_early_returns pNoStartup true true
      (.v0_0_3 infoOwnerInList) 1 true
      (Or.inr ⟨_, rfl, Or.inr ⟨rfl, rfl⟩⟩)

/-! Section: C4 -/

/-- Counterexample to C4 as stated: an account update whose owner is not in
the allow-list is delivered to no channel at all — the block-builder
channel, rpc channel and quic server (all present and healthy here) get
nothing, although the claim says non-broker channels receive every event
unconditionally; likewise, even a transaction that matches the allow-list
is never delivered to the rpc channel. -/
theorem C4_counterexample :
    infoOwnerNotInList.owner ∉ pump_pubkeys_account ∧
    pLoaded.block_builder_channel = true ∧
    pLoaded.rpc_server_message_channel = true ∧
    update_account pLoaded true true (.v0_0_3 infoOwnerNotInList) 3 false =
      (.ok (), DispatchOut.empty) ∧
    (notify_transaction pLoaded true true (.v0_0_2 infoTxMatch)
        9).2.rpc = none := by
  exact ⟨by decide, rfl, rfl, by decide, by decide⟩

/-- C4 as amended: the Subscription Filter is applied before dispatch to
every channel, so it is global rather than broker-specific: an
`AccountUpdate` whose owner is outside the allow-list — or a `Transaction`
with no allow-listed account key or with a non-`None` execution error — is
delivered to no Distribution Channel at all; a passing event is delivered
to the broker-bound channel and to every present non-broker channel alike;
and the rpc-server channel additionally never receives `Transaction`
events at all. -/
theorem C4_amended_filter_is_global :
    (∀ (p : QuicGeyserPlugin) (quicSendOk mqSendOk : Bool)
        (info : ReplicaAccountInfoV3) (slot : Nat) (is_startup : Bool),
      info.owner ∉ pump_pubkeys_account →
      update_account p quicSendOk mqSendOk (.v0_0_3 info) slot is_startup =
        (.ok (), DispatchOut.empty)) ∧
    (∀ (p : QuicGeyserPlugin) (cfg : QuicPluginConfig) (mqSendOk : Bool)
        (info : ReplicaAccountInfoV3) (slot : Nat) (is_startup : Bool),
      p.quic_server = some cfg → cfg.allow_accounts = true →
      (is_startup = true → cfg.allow_accounts_at_startup = true) →
      info.owner ∈ pump_pubkeys_account →
      ((update_account p true mqSendOk (.v0_0_3 info) slot
          is_startup).2.block_builder.isSome = p.block_builder_channel ∧
        (update_account p true mqSendOk (.v0_0_3 info) slot
          is_startup).2.rpc.isSome = p.rpc_server_message_channel ∧
        (update_account p true mqSendOk (.v0_0_3 info) slot
          is_startup).2.quic.isSome = true)) ∧
    (∀ (p : QuicGeyserPlugin) (quicSendOk mqSendOk : Bool)
        (info : ReplicaTransactionInfoV2) (slot : Nat),
      ((∀ k ∈ pump_pubkeys_transaction, k ∉ info.account_keys) ∨
        info.transaction_status_meta.status ≠ .ok) →
      notify_transaction p quicSendOk mqSendOk (.v0_0_2 info) slot =
        (.ok (), DispatchOut.empty)) ∧
    (∀ (p : QuicGeyserPlugin) (quicSendOk mqSendOk : Bool)
        (tx : ReplicaTransactionInfoVersions) (slot : Nat),
      (notify_transaction p quicSendOk mqSendOk tx slot).2.rpc = none) := by
  refine ⟨?_, ?_, ?_, ?_⟩
  · intro p quicSendOk mqSendOk info slot is_startup hmem
    have hc : ¬(pump_pubkeys_account.contains info.owner = true) :=
      fun h => hmem (List.elem_iff.mp h)
    rcases hq : p.quic_server with _ | cfg
    · simp [update_account, hq]
    · by_cases hcond : (!cfg.allow_accounts ||
          (is_startup && !cfg.allow_accounts_at_startup)) = true
      · simp [update_account, hq, hcond]
      · simp [update_account, hq, hcond, hc, hmem]
  · intro p cfg mqSendOk info slot is_startup hq hallow hstart hmem
    have hcond : (!cfg.allow_accounts ||
        (is_startup && !cfg.allow_accounts_at_startup)) = false := by
      cases is_startup
      · simp [hallow]
      · simp [hallow, hstart rfl]
    have hc : pump_pubkeys_account.contains info.owner = true :=
      List.elem_iff.mpr hmem
    refine ⟨?_, ?_, ?_⟩ <;>
      simp [update_account, hq, hcond, hc, hmem] <;>
      cases hb : p.block_builder_channel <;>
      cases hr : p.rpc_server_message_channel <;> simp
  · intro p quicSendOk mqSendOk info slot hcase
    rcases hq : p.quic_server with _ | cfg
    · simp [notify_transaction, hq]
    · rcases hcase with hforall | herr
      · simp [notify_transaction, hq, DispatchOut.empty]
        intro x hx hxx
        exact absurd hxx (hforall x hx)
      · rcases hst : info.transaction_status_meta.status with _ | e
        · exact absurd hst herr
        · by_cases hall : ∀ k ∈ pump_pubkeys_transaction,
              k ∉ info.account_keys
          · simp [notify_transaction, hq, DispatchOut.empty]
            intro x hx hxx
            exact absurd hxx (hall x hx)
          · have herr2 : (buildTransaction slot info).transaction_meta.error =
                some e := by simp [buildTransaction, hst]
            simp [notify_transaction, hq, hall, herr2, DispatchOut.empty]
  · intro p quicSendOk mqSendOk tx slot
    rcases hq : p.quic_server with _ | cfg
    · simp [notify_transaction, hq, DispatchOut.empty]
    · rcases tx with _ | info
      · simp [notify_transaction, hq, DispatchOut.empty]
      · by_cases hall : ∀ k ∈ pump_pubkeys_transaction,
            k ∉ info.account_keys
        · simp [notify_transaction, hq, DispatchOut.empty]
          rw [if_pos hall]
        · by_cases herr : (buildTransaction slot
              info).transaction_meta.error.isSome = true
          · simp [notify_transaction, hq, hall, herr, DispatchOut.empty]
          · simp [notify_transaction, hq, hall, herr, DispatchOut.empty]

/-- Witness for the amended C4 at concrete inputs: the non-matching account
update reaches no channel; the matching one reaches the block-builder, rpc
and quic channels of the fully loaded plugin; the matching transaction
still reaches no rpc channel. -/
theorem C4_amended_witness :
    update_account pLoaded true true (.v0_0_3 infoOwnerNotInList) 3 false =
      (.ok (), DispatchOut.empty) ∧
    ((update_account pLoaded true true (.v0_0_3 infoOwnerInList) 3
        false).2.block_builder.isSome = true ∧
      (update_account pLoaded true true (.v0_0_3 infoOwnerInList) 3
        false).2.rpc.isSome = true ∧
      (update_account pLoaded true true (.v0_0_3 infoOwnerInList) 3
        false).2.quic.isSome = true) ∧
    (notify_transaction pLoaded true true (.v0_0_2 infoTxMatch) 9).2.rpc =
      none := by
  refine ⟨?_, ?_, ?_⟩
  · exact C4_amended_filter_is_global.1 pLoaded true true infoOwnerNotInList
      3 false (by decide)
  · exact C4_amended_filter_is_global.2.1 pLoaded
      { allow_accounts := true, allow_accounts_at_startup := true } true
      infoOwnerInList 3 false rfl rfl (fun h => rfl) (by decide)
  · exact C4_amended_filter_is_global.2.2.2 pLoaded true true
      (.v0_0_2 infoTxMatch) 9

/-! Section: C8 -/

/-- Counterexample to C8 as stated: on a loaded plugin, a failure of
`quic_server.send_message` (a non-broker distribution failure) is
propagated to the host as `GeyserPluginError::Custom` from the
`update_account` notification callback, so an unsupported upstream schema
version is not the only error category that crosses back to the host. -/
theorem C8_counterexample :
    (update_account pLoaded false true (.v0_0_3 infoOwnerInList) 3
        false).1 = .error .custom ∧
    GeyserPluginError.custom ≠
      .accountsUpdateError ("Unsupported account info version") := by
  exact ⟨by decide, by decide⟩

/-- C8 as amended: a failed send to the broker-bound channel is only
logged — the callback result is entirely independent of the broker
channel's health — but two error categories cross back to the host from
the notification callbacks: an unsupported upstream schema version, and a
failed `quic_server.send_message` (surfaced as `Custom`, exactly when the
quic send fails). -/
theorem C8_amended_error_surface :
    (∀ (p : QuicGeyserPlugin) (quicSendOk mq1 mq2 : Bool)
        (account : ReplicaAccountInfoVersions) (slot : Nat)
        (is_startup : Bool),
      (update_account p quicSendOk mq1 account slot is_startup).1 =
        (update_account p quicSendOk mq2 account slot is_startup).1) ∧
    (∀ (p : QuicGeyserPlugin) (quicSendOk mq1 mq2 : Bool)
        (tx : ReplicaTransactionInfoVersions) (slot : Nat),
      (notify_transaction p quicSendOk mq1 tx slot).1 =
        (notify_transaction p quicSendOk mq2 tx slot).1) ∧
    (∀ (p : QuicGeyserPlugin) (quicSendOk mqSendOk : Bool)
        (account : ReplicaAccountInfoVersions) (slot : Nat)
        (is_startup : Bool) (e : GeyserPluginError),
      (update_account p quicSendOk mqSendOk account slot is_startup).1 =
        .error e →
      e = .accountsUpdateError ("Unsupported account info version") ∨
        (e = .custom ∧ quicSendOk = false)) ∧
    (∀ (p : QuicGeyserPlugin) (quicSendOk mqSendOk : Bool)
        (tx : ReplicaTransactionInfoVersions) (slot : Nat)
        (e : GeyserPluginError),
      (notify_transaction p quicSendOk mqSendOk tx slot).1 = .error e →
      e = .transactionUpdateError ("Unsupported transaction version") ∨
        (e = .custom ∧ quicSendOk = false)) ∧
    (∀ (p : QuicGeyserPlugin) (quicSendOk : Bool) (slot : Nat)
        (parent : Option Nat) (status : SlotStatus) (e : GeyserPluginError),
      (update_slot_status p quicSendOk slot parent status).1 = .error e →
      e = .custom ∧ quicSendOk = false) := by
  refine ⟨?_, ?_, ?_, ?_, ?_⟩
  · intro p quicSendOk mq1 mq2 account slot is_startup
    rcases hq : p.quic_server with _ | cfg
    · simp [update_account, hq]
    · by_cases hcond : (!cfg.allow_accounts ||
          (is_startup && !cfg.allow_accounts_at_startup)) = true
      · simp [update_account, hq, hcond]
      · rcases account with _ | _ | info
        · simp [update_account, hq, hcond]
        · simp [update_account, hq, hcond]
        · by_cases hc : info.owner ∈ pump_pubkeys_account
          · simp [update_account, hq, hcond, List.elem_iff.mpr hc, hc]
          · simp [update_account, hq, hcond, hc,
              fun h => hc (List.elem_iff.mp h)]
  · intro p quicSendOk mq1 mq2 tx slot
    rcases hq : p.quic_server with _ | cfg
    · simp [notify_transaction, hq]
    · rcases tx with _ | info
      · simp [notify_transaction, hq]
      · by_cases hall : ∀ k ∈ pump_pubkeys_transaction,
            k ∉ info.account_keys
        · simp [notify_transaction, hq]
          rw [if_pos hall, if_pos hall]
        · by_cases herr : (buildTransaction slot
              info).transaction_meta.error.isSome = true
          · simp [notify_transaction, hq, hall, herr]
          · simp [notify_transaction, hq, hall, herr]
  · intro p quicSendOk mqSendOk account slot is_startup e h
    rcases hq : p.quic_server with _ | cfg
    · simp [update_account, hq] at h
    · by_cases hcond : (!cfg.allow_accounts ||
          (is_startup && !cfg.allow_accounts_at_startup)) = true
      · simp [update_account, hq, hcond] at h
      · rcases account with _ | _ | info
        · simp [update_account, hq, hcond] at h
          exact Or.inl h.symm
        · simp [update_account, hq, hcond] at h
          exact Or.inl h.symm
        · by_cases hc : info.owner ∈ pump_pubkeys_account
          · rcases hqs : quicSendOk
            · simp [update_account, hq, hcond, hc, hqs] at h
              exact Or.inr ⟨h.symm, rfl⟩
            · simp [update_account, hq, hcond, hc, hqs] at h
          · simp [update_account, hq, hcond, hc] at h
  · intro p quicSendOk mqSendOk tx slot e h
    rcases hq : p.quic_server with _ | cfg
    · simp [notify_transaction, hq] at h
    · rcases tx with _ | info
      · simp [notify_transaction, hq] at h
        exact Or.inl h.symm
      · by_cases hall : ∀ k ∈ pump_pubkeys_transaction,
            k ∉ info.account_keys
        · simp [notify_transaction, hq] at h
          rw [if_pos hall] at h
          simp at h
        · by_cases herr : (buildTransaction slot
              info).transaction_meta.error.isSome = true
          · simp [notify_transaction, hq, hall, herr] at h
          · rcases hqs : quicSendOk
            · simp [notify_transaction, hq, hall, herr, hqs] at h
              exact Or.inr ⟨h.symm, rfl⟩
            · simp [notify_transaction, hq, hall, herr, hqs] at h
  · intro p quicSendOk slot parent status e h
    rcases hq : p.quic_server with _ | cfg
    · simp [update_slot_status, hq] at h
    · rcases hqs : quicSendOk
      · simp [update_slot_status, hq, hqs] at h
        exact ⟨h.symm, rfl⟩
      · simp [update_slot_status, hq, hqs] at h

/-- Witness for the amended C8 at concrete inputs: the `update_account`
result is the same whether the broker-channel send succeeds or fails, and
the concrete error surfaced on a failed quic send is classified by the
theorem as the `Custom` / quic-send category, not a schema-version
error. -/
theorem C8_amended_witness :
    ((update_account pLoaded false true (.v0_0_3 infoOwnerInList) 3
        false).1 =
      (update_account pLoaded false false (.v0_0_3 infoOwnerInList) 3
        false).1) ∧
    (GeyserPluginError.custom =
        .accountsUpdateError ("Unsupported account info version") ∨
      (GeyserPluginError.custom = .custom ∧ (false : Bool) = false)) := by
  refine ⟨?_, ?_⟩
  · exact C8_amended_error_surface.1 pLoaded false true false
      (.v0_0_3 infoOwnerInList) 3 false
  · exact C8_amended_error_surface.2.2.1 pLoaded false true
      (.v0_0_3 infoOwnerInList) 3 false .custom (by decide)

/-! Section: C9 -/

/-- C9: every `Transaction` event forwarded to the broker-bound channel
carries token-balance lists obtained by converting the upstream lists with
`toTokenBalanceSerializable` after replacing an absent upstream list by the
empty list — so the forwarded `pre/post_token_balances` are always `Some`
(never `None`), an absent upstream list becomes `Some []` — and the
conversion records `token_amount = 0` for every balance whose decimal
amount string does not parse as a `u64`. -/
theorem C9_token_balances_forwarded :
    (∀ (p : QuicGeyserPlugin) (quicSendOk mqSendOk : Bool)
        (info : ReplicaTransactionInfoV2) (slot : Nat) (tx : Transaction),
      (notify_transaction p quicSendOk mqSendOk (.v0_0_2 info) slot).2.mq =
        some (.transaction tx) →
      tx.transaction_meta.pre_token_balances =
          some (((info.transaction_status_meta.pre_token_balances).getD
            []).map toTokenBalanceSerializable) ∧
        tx.transaction_meta.post_token_balances =
          some (((info.transaction_status_meta.post_token_balances).getD
            []).map toTokenBalanceSerializable) ∧
        (info.transaction_status_meta.pre_token_balances = none →
          tx.transaction_meta.pre_token_balances = some []) ∧
        (info.transaction_status_meta.post_token_balances = none →
          tx.transaction_meta.post_token_balances = some [])) ∧
    (∀ b : TransactionTokenBalance,
      parse_u64 b.ui_token_amount.amount = none →
      (toTokenBalanceSerializable b).token_amount = 0) := by
  constructor
  · intro p quicSendOk mqSendOk info slot tx h
    rcases hq : p.quic_server with _ | cfg
    · simp [notify_transaction, hq, DispatchOut.empty] at h
    · by_cases hall : ∀ k ∈ pump_pubkeys_transaction, k ∉ info.account_keys
      · simp [notify_transaction, hq] at h
        rw [if_pos hall] at h
        simp [DispatchOut.empty] at h
      · by_cases herr : (buildTransaction slot
            info).transaction_meta.error.isSome = true
        · simp [notify_transaction, hq, hall, herr, DispatchOut.empty] at h
        · have htx : tx = buildTransaction slot info := by
            simp [notify_transaction, hq, hall, herr] at h
            exact h.2.symm
          subst htx
          refine ⟨rfl, rfl, ?_, ?_⟩
          · intro hnone
            simp [buildTransaction, hnone]
          · intro hnone
            simp [buildTransaction, hnone]
  · intro b hb
    simp [toTokenBalanceSerializable, hb]

/-- Witness for C9 at concrete inputs: the forwarded matching transaction
has `pre_token_balances = Some []` (upstream list absent) and its one
post-token-balance, whose amount string `12x4` does not parse, is recorded
with `token_amount = 0`. -/
theorem C9_witness :
    (notify_transaction pLoaded true true (.v0_0_2 infoTxMatch) 9).2.mq =
      some (.transaction (buildTransaction 9 infoTxMatch)) ∧
    (buildTransaction 9 infoTxMatch).transaction_meta.pre_token_balances =
      some [] ∧
    (buildTransaction 9 infoTxMatch).transaction_meta.post_token_balances =
      some [{ account_index := 3, mint := ("mintX"), token_amount := 0,
              owner := ("ownY"), program_id := ("progZ") }] ∧
    parse_u64 badBalance.ui_token_amount.amount = none := by
  have h := C9_token_balances_forwarded.1 pLoaded true true infoTxMatch 9
    (buildTransaction 9 infoTxMatch) (by decide)
  refine ⟨by decide, h.2.2.1 rfl, ?_, by decide⟩
  exact (h.2.1).trans (by decide)

end Geyser
